import Mathlib

/-!
Verification of `src/front-end/src/main_utils/virtualpad.js` (the Pad Control
API of the dragonshark-ui repository) against its specification.

The module under study is a control-plane client composed of three concerns:
a command invoker (`exec`, from `./processes`), a response decoder
(`jsonParse` plus the per-operation error shaping), and six public
operations (`startServer`, `stopServer`, `checkServer`, `clearPad`,
`status`, `resetPasswords`).

Modelling choices:
- JavaScript values flowing through the module (parsed JSON payloads and the
  locally built error envelopes) are modelled by the inductive type `JSVal`;
  objects are lists of key/value pairs in insertion order, exactly the order
  in which the source writes the literals.
- The command invoker `exec` lives in `./processes`, which is not under
  `src/`; it is therefore taken as a parameter `invoke : String → ExecOutcome`.
  Modelled from the spec: §4.1 gives its contract as
  `run(commandLine) -> {stdout, stderr, exitCode}` where the exit code may be
  absent (§3: "absence of a code ... normalizes to 0"); the source reads it
  as `result?.code`, so absence (null `result` or absent `code`) is one
  `Option` field `exitCode`.
- `JSON.parse` is the JavaScript standard library, not repository code; it is
  a parameter `parseJSON : String → Option JSVal`, `none` meaning the parse
  throws.  `parseJSON s = some v` states that `s` is a valid JSON encoding of
  the value `v`.
- The JavaScript exceptions thrown by `resetPasswords` on non-array,
  non-`"all"` truthy arguments (`pads.filter is not a function`) are modelled
  with `Except String`; every operation returns
  `Except String (OpResult × List String)`, the list being the external
  commands invoked, in order (the spy of the spec's testable properties).
- An absent `details` field (the `{code: 0}` short-circuit of
  `resetPasswords`) is modelled by `details = none`.
-/

namespace VirtualPad

/-- A JavaScript value as it appears in this module: parsed JSON payloads and
the locally constructed envelopes.  Objects keep their fields in insertion
order, matching the order the source writes the literals. -/
inductive JSVal where
  | null : JSVal
  | bool : Bool → JSVal
  | num : Int → JSVal
  | str : String → JSVal
  | arr : List JSVal → JSVal
  | obj : List (String × JSVal) → JSVal

/-- JavaScript property access `v[k]` on our value model: `some` of the first
field named `k` when `v` is an object holding one, `none` (JS `undefined`)
otherwise. -/
def getField : JSVal → String → Option JSVal
  | JSVal.obj fs, k => (fs.find? (fun f => f.fst == k)).map (fun f => f.snd)
  | _, _ => none

/-- A JavaScript argument value as passed to `clearPad` / inside the
`resetPasswords` array: a number or a string (the two forms the module's
contracts admit for pad indices; any such value can also be invalid). -/
inductive JSArg where
  | num : Int → JSArg
  | str : String → JSArg
deriving DecidableEq

/-- JavaScript number-or-string to string conversion, as performed by template
interpolation and by `Array.prototype.join`. -/
def argToString : JSArg → String
  | JSArg.num n => toString n
  | JSArg.str s => s

/-- Embeds an argument value into the value model (for the `index` field the
invalid-index envelope carries verbatim). -/
def argToVal : JSArg → JSVal
  | JSArg.num n => JSVal.num n
  | JSArg.str s => JSVal.str s

/-- Modelled from the spec: outcome of the external command invoker (`exec`
from `./processes`, which is not under `src/`).  Per §4.1 the invoker returns
the raw `stdout`, `stderr` and exit code of the process; per §3 the exit code
may be absent.  The source reads it as `result?.code`, collapsing a null
`result` and an absent `code` into one optional value. -/
structure ExecOutcome where
  stdout : String
  stderr : String
  exitCode : Option Int

/-- `result?.code || 0` — JavaScript `||` with the right operand `0`: an
absent code yields `0`, a present code yields itself (`0` is falsy, but
`0 || 0` is still `0`). -/
def jsOrZero : Option Int → Int
  | none => 0
  | some c => if c = 0 then 0 else c

/-- The uniform result of every Pad Control API operation:
`{code, details}`.  `details = none` models an absent `details` field (the
`{code: 0}` no-op result of `resetPasswords`). -/
structure OpResult where
  code : Int
  details : Option JSVal

/-- The set of valid pad indices, in both integer and string-decimal form:
`new Set([0,...,7, "0",...,"7"])`, queried with `.has` (modelled by list
membership via `contains`, which agrees with `Set.has` on these values). -/
def _pads : List JSArg :=
  [JSArg.num 0, JSArg.num 1, JSArg.num 2, JSArg.num 3,
   JSArg.num 4, JSArg.num 5, JSArg.num 6, JSArg.num 7,
   JSArg.str "0", JSArg.str "1", JSArg.str "2", JSArg.str "3",
   JSArg.str "4", JSArg.str "5", JSArg.str "6", JSArg.str "7"]

/-- `jsonParse(value)`: `try { return JSON.parse(value); } catch { return
{status: "error", hint: "unknown", dump: value} }`.  The catch branch spells
the discriminator key `status` (correctly). -/
def jsonParse (parseJSON : String → Option JSVal) (value : String) : JSVal :=
  match parseJSON value with
  | some v => v
  | none => JSVal.obj [("status", JSVal.str "error"), ("hint", JSVal.str "unknown"),
      ("dump", JSVal.str value)]

/-- `startServer()`: runs `virtualpad-admin server start`; on a truthy
(non-zero) code the details are the inline envelope `{satus: "error", hint:
"unknown", dump: stderr}` (key spelled `satus` in the source), otherwise
`jsonParse(stdout)`. -/
def startServer (invoke : String → ExecOutcome) (parseJSON : String → Option JSVal) :
    Except String (OpResult × List String) :=
  let o := invoke "virtualpad-admin server start"
  let code := jsOrZero o.exitCode
  Except.ok (⟨code, some (if code = 0 then jsonParse parseJSON o.stdout
      else JSVal.obj [("satus", JSVal.str "error"), ("hint", JSVal.str "unknown"),
        ("dump", JSVal.str o.stderr)])⟩,
    ["virtualpad-admin server start"])

/-- `stopServer()`: runs `virtualpad-admin server stop`; same decode shape as
`startServer`. -/
def stopServer (invoke : String → ExecOutcome) (parseJSON : String → Option JSVal) :
    Except String (OpResult × List String) :=
  let o := invoke "virtualpad-admin server stop"
  let code := jsOrZero o.exitCode
  Except.ok (⟨code, some (if code = 0 then jsonParse parseJSON o.stdout
      else JSVal.obj [("satus", JSVal.str "error"), ("hint", JSVal.str "unknown"),
        ("dump", JSVal.str o.stderr)])⟩,
    ["virtualpad-admin server stop"])

/-- `checkServer()`: runs `virtualpad-admin server check`; same decode shape
as `startServer`. -/
def checkServer (invoke : String → ExecOutcome) (parseJSON : String → Option JSVal) :
    Except String (OpResult × List String) :=
  let o := invoke "virtualpad-admin server check"
  let code := jsOrZero o.exitCode
  Except.ok (⟨code, some (if code = 0 then jsonParse parseJSON o.stdout
      else JSVal.obj [("satus", JSVal.str "error"), ("hint", JSVal.str "unknown"),
        ("dump", JSVal.str o.stderr)])⟩,
    ["virtualpad-admin server check"])

/-- `clearPad(pad)`: three branches of the source —
`pad === "all"` runs `pad clear-all` and on a zero code synthesizes
`{type: "response", status: "pad:ok"}` locally (stdout is never parsed);
`_pads.has(pad)` runs `pad clear ${pad}` with the usual decode shape;
otherwise it returns `{code: 1, details: {satus: "error", hint:
"pad:invalid-index", index: pad}}` (key spelled `satus`) without invoking
anything. -/
def clearPad (invoke : String → ExecOutcome) (parseJSON : String → Option JSVal)
    (pad : JSArg) : Except String (OpResult × List String) :=
  if pad = JSArg.str "all" then
    let o := invoke "virtualpad-admin pad clear-all"
    let code := jsOrZero o.exitCode
    Except.ok (⟨code, some (if code = 0 then
        JSVal.obj [("type", JSVal.str "response"), ("status", JSVal.str "pad:ok")]
      else JSVal.obj [("satus", JSVal.str "error"), ("hint", JSVal.str "unknown"),
        ("dump", JSVal.str o.stderr)])⟩,
      ["virtualpad-admin pad clear-all"])
  else if _pads.contains pad then
    let cmd := "virtualpad-admin pad clear " ++ argToString pad
    let o := invoke cmd
    let code := jsOrZero o.exitCode
    Except.ok (⟨code, some (if code = 0 then jsonParse parseJSON o.stdout
        else JSVal.obj [("satus", JSVal.str "error"), ("hint", JSVal.str "unknown"),
          ("dump", JSVal.str o.stderr)])⟩,
      [cmd])
  else
    Except.ok (⟨1, some (JSVal.obj [("satus", JSVal.str "error"),
        ("hint", JSVal.str "pad:invalid-index"), ("index", argToVal pad)])⟩,
      [])

/-- `status()`: runs `virtualpad-admin pad status`; same decode shape as
`startServer`. -/
def status (invoke : String → ExecOutcome) (parseJSON : String → Option JSVal) :
    Except String (OpResult × List String) :=
  let o := invoke "virtualpad-admin pad status"
  let code := jsOrZero o.exitCode
  Except.ok (⟨code, some (if code = 0 then jsonParse parseJSON o.stdout
      else JSVal.obj [("satus", JSVal.str "error"), ("hint", JSVal.str "unknown"),
        ("dump", JSVal.str o.stderr)])⟩,
    ["virtualpad-admin pad status"])

/-- The argument of `resetPasswords(pads)` as a JavaScript value: omitted /
null (`undef`), a string, a number, or an array. -/
inductive ResetArg where
  | undef : ResetArg
  | strVal : String → ResetArg
  | numVal : Int → ResetArg
  | arrVal : List JSArg → ResetArg

/-- The normalization prefix of `resetPasswords`:
`pads ||= []` — a falsy argument (omitted, `""`, `0`) becomes `[]`;
`if (pads === "all") pads = [0,...,7]`;
`pads = pads.filter(e => _pads.has(e))` — `.filter` exists only on arrays, so
a truthy number or a truthy string other than `"all"` throws
`TypeError: pads.filter is not a function`. -/
def normalizePads : ResetArg → Except String (List JSArg)
  | ResetArg.undef => Except.ok (([] : List JSArg).filter (fun e => _pads.contains e))
  | ResetArg.strVal s =>
      if s = "" then Except.ok (([] : List JSArg).filter (fun e => _pads.contains e))
      else if s = "all" then
        Except.ok (([JSArg.num 0, JSArg.num 1, JSArg.num 2, JSArg.num 3,
          JSArg.num 4, JSArg.num 5, JSArg.num 6, JSArg.num 7]).filter
            (fun e => _pads.contains e))
      else Except.error "TypeError: pads.filter is not a function"
  | ResetArg.numVal n =>
      if n = 0 then Except.ok (([] : List JSArg).filter (fun e => _pads.contains e))
      else Except.error "TypeError: pads.filter is not a function"
  | ResetArg.arrVal xs => Except.ok (xs.filter (fun e => _pads.contains e))

/-- `resetPasswords(pads)`: normalizes the argument (see `normalizePads`);
an empty normalized list returns `{code: 0}` (no `details` field) without
invoking any command; otherwise it joins the indices with single spaces and
runs `virtualpad-admin pad reset-passwords <joined>` with the usual decode
shape. -/
def resetPasswords (invoke : String → ExecOutcome) (parseJSON : String → Option JSVal)
    (padsArg : ResetArg) : Except String (OpResult × List String) :=
  match normalizePads padsArg with
  | Except.error e => Except.error e
  | Except.ok pads =>
    if pads.length = 0 then Except.ok (⟨0, none⟩, [])
    else
      let joined := String.intercalate " " (pads.map argToString)
      let cmd := "virtualpad-admin pad reset-passwords " ++ joined
      let o := invoke cmd
      let code := jsOrZero o.exitCode
      Except.ok (⟨code, some (if code = 0 then jsonParse parseJSON o.stdout
          else JSVal.obj [("satus", JSVal.str "error"), ("hint", JSVal.str "unknown"),
            ("dump", JSVal.str o.stderr)])⟩,
        [cmd])

/-- The list of external commands an operation invoked, in order (the spy the
spec's testable properties describe). -/
def invocations : Except String (OpResult × List String) → List String
  | Except.ok r => r.snd
  | Except.error _ => []

/-- The `code` field of an operation result (`0` when the operation threw,
unused on such paths). -/
def resultCode : Except String (OpResult × List String) → Int
  | Except.ok r => r.fst.code
  | Except.error _ => 0

/-- The `details` field of an operation result; `none` both when the field is
absent and when the operation threw. -/
def resultDetails : Except String (OpResult × List String) → Option JSVal
  | Except.ok r => r.fst.details
  | Except.error _ => none

/-- Whether the operation returned (rather than threw). -/
def returnsValue : Except String (OpResult × List String) → Bool
  | Except.ok _ => true
  | Except.error _ => false

/-- The envelope the source builds inline on every non-zero exit code and
(with a different `hint`) on an invalid pad index: note the key is spelled
`satus` in the source, not `status`. -/
def processFailureEnvelope (stderr : String) : JSVal :=
  JSVal.obj [("satus", JSVal.str "error"), ("hint", JSVal.str "unknown"),
    ("dump", JSVal.str stderr)]

/-- The envelope `jsonParse` builds when parsing throws: here the key is
spelled `status` (correctly). -/
def parseFailureEnvelope (stdout : String) : JSVal :=
  JSVal.obj [("status", JSVal.str "error"), ("hint", JSVal.str "unknown"),
    ("dump", JSVal.str stdout)]

/-- The invalid-index envelope of `clearPad`, with its `satus` key and the
offending argument carried verbatim in `index`. -/
def invalidIndexEnvelope (pad : JSArg) : JSVal :=
  JSVal.obj [("satus", JSVal.str "error"), ("hint", JSVal.str "pad:invalid-index"),
    ("index", argToVal pad)]

/-- The success envelope `clearPad("all")` synthesizes locally on a zero exit
code. -/
def padOkEnvelope : JSVal :=
  JSVal.obj [("type", JSVal.str "response"), ("status", JSVal.str "pad:ok")]

/-- A valid PadIndex in the sense of the spec's data model (§3): an integer
in [0,7], or its string-decimal representation.  This is the spec-side
notion, written independently of the source's `_pads` set. -/
def isValidPadIndex : JSArg → Bool
  | JSArg.num n => decide (0 ≤ n ∧ n ≤ 7)
  | JSArg.str s => (List.range 8).any (fun k => s == toString k)

theorem jsOrZero_some (n : Int) : jsOrZero (some n) = n := by
  by_cases h : n = 0
  · subst h; rfl
  · simp [jsOrZero, h]

theorem contains_pads_ne_all {pad : JSArg} (h : _pads.contains pad = true) :
    pad ≠ JSArg.str "all" := by
  intro he
  subst he
  exact absurd h (by decide)

/-- The source's membership test `_pads.has` agrees with the spec-side
predicate `isValidPadIndex`. -/
theorem contains_pads_eq (e : JSArg) : _pads.contains e = isValidPadIndex e := by
  rw [Bool.eq_iff_iff]
  cases e with
  | num n =>
      simp [_pads, isValidPadIndex]
      omega
  | str s =>
      simp [_pads, isValidPadIndex]
      constructor
      · rintro (rfl | rfl | rfl | rfl | rfl | rfl | rfl | rfl)
        · exact ⟨0, by omega, rfl⟩
        · exact ⟨1, by omega, rfl⟩
        · exact ⟨2, by omega, rfl⟩
        · exact ⟨3, by omega, rfl⟩
        · exact ⟨4, by omega, rfl⟩
        · exact ⟨5, by omega, rfl⟩
        · exact ⟨6, by omega, rfl⟩
        · exact ⟨7, by omega, rfl⟩
      · rintro ⟨k, hk, rfl⟩
        interval_cases k <;> decide

/-- C1 (counterexample): the claim states that on a non-zero exit code every
admin-command operation returns `details = {status: "error", hint: "unknown",
dump: stderr}`.  At exit code 2 with stderr `"boom"`, `startServer` in fact
returns an envelope whose first key is spelled `satus`: the envelope has no
`status` field at all.  Moreover the claim's second case fails for
`clearPad("all")`: at exit code 0 with the unparseable stdout `"not json"`
the details are the synthesized `{type: "response", status: "pad:ok"}`, not
the parse-failure envelope (it has no `hint` field). -/
theorem C1_counterexample :
    resultDetails (startServer (fun _ => ⟨"", "boom", some 2⟩) (fun _ => none)) =
      some (JSVal.obj [("satus", JSVal.str "error"), ("hint", JSVal.str "unknown"),
        ("dump", JSVal.str "boom")]) ∧
    (resultDetails (startServer (fun _ => ⟨"", "boom", some 2⟩) (fun _ => none))).bind
      (fun d => getField d "status") = none ∧
    resultDetails (clearPad (fun _ => ⟨"not json", "", some 0⟩) (fun _ => none)
      (JSArg.str "all")) =
      some (JSVal.obj [("type", JSVal.str "response"), ("status", JSVal.str "pad:ok")]) ∧
    (resultDetails (clearPad (fun _ => ⟨"not json", "", some 0⟩) (fun _ => none)
      (JSArg.str "all"))).bind (fun d => getField d "hint") = none :=
  ⟨rfl, rfl, rfl, rfl⟩

/-- C1 (amended): for every operation that invokes the admin command
(`startServer`, `stopServer`, `checkServer`, `clearPad` with a valid pad
index or `"all"`, `status`, `resetPasswords` with a non-empty normalized
list): if the process exit code is non-zero, the result is
`{code: exitCode, details: {satus: "error", hint: "unknown", dump: stderr}}`
— with the key spelled `satus` — regardless of stdout; if the exit code is
zero and stdout does not parse as JSON, for every such operation that parses
stdout (all of them except `clearPad("all")`, which instead synthesizes
`{type: "response", status: "pad:ok"}`) the result is `{code: 0, details:
{status: "error", hint: "unknown", dump: stdout}}` — the dump carries stderr
in the first case and the original raw stdout in the second.  The non-zero
case quantifies over an unconstrained stdout `out` (parseable or not); the
parse-failure case uses its own stdout `bad`, constrained only there. -/
theorem C1_amended (parseJSON : String → Option JSVal) (out bad err : String) (n : Int)
    (pad : JSArg) (xs : List JSArg)
    (hn : n ≠ 0) (hpad : _pads.contains pad = true)
    (hxs : xs.filter (fun e => _pads.contains e) ≠ [])
    (hparse : parseJSON bad = none) :
    (startServer (fun _ => ⟨out, err, some n⟩) parseJSON =
      Except.ok (⟨n, some (processFailureEnvelope err)⟩,
        ["virtualpad-admin server start"])) ∧
    (stopServer (fun _ => ⟨out, err, some n⟩) parseJSON =
      Except.ok (⟨n, some (processFailureEnvelope err)⟩,
        ["virtualpad-admin server stop"])) ∧
    (checkServer (fun _ => ⟨out, err, some n⟩) parseJSON =
      Except.ok (⟨n, some (processFailureEnvelope err)⟩,
        ["virtualpad-admin server check"])) ∧
    (status (fun _ => ⟨out, err, some n⟩) parseJSON =
      Except.ok (⟨n, some (processFailureEnvelope err)⟩,
        ["virtualpad-admin pad status"])) ∧
    (clearPad (fun _ => ⟨out, err, some n⟩) parseJSON pad =
      Except.ok (⟨n, some (processFailureEnvelope err)⟩,
        ["virtualpad-admin pad clear " ++ argToString pad])) ∧
    (clearPad (fun _ => ⟨out, err, some n⟩) parseJSON (JSArg.str "all") =
      Except.ok (⟨n, some (processFailureEnvelope err)⟩,
        ["virtualpad-admin pad clear-all"])) ∧
    (resetPasswords (fun _ => ⟨out, err, some n⟩) parseJSON (ResetArg.arrVal xs) =
      Except.ok (⟨n, some (processFailureEnvelope err)⟩,
        ["virtualpad-admin pad reset-passwords " ++ String.intercalate " "
          ((xs.filter (fun e => _pads.contains e)).map argToString)])) ∧
    (startServer (fun _ => ⟨bad, err, some 0⟩) parseJSON =
      Except.ok (⟨0, some (parseFailureEnvelope bad)⟩,
        ["virtualpad-admin server start"])) ∧
    (stopServer (fun _ => ⟨bad, err, some 0⟩) parseJSON =
      Except.ok (⟨0, some (parseFailureEnvelope bad)⟩,
        ["virtualpad-admin server stop"])) ∧
    (checkServer (fun _ => ⟨bad, err, some 0⟩) parseJSON =
      Except.ok (⟨0, some (parseFailureEnvelope bad)⟩,
        ["virtualpad-admin server check"])) ∧
    (status (fun _ => ⟨bad, err, some 0⟩) parseJSON =
      Except.ok (⟨0, some (parseFailureEnvelope bad)⟩,
        ["virtualpad-admin pad status"])) ∧
    (clearPad (fun _ => ⟨bad, err, some 0⟩) parseJSON pad =
      Except.ok (⟨0, some (parseFailureEnvelope bad)⟩,
        ["virtualpad-admin pad clear " ++ argToString pad])) ∧
    (resetPasswords (fun _ => ⟨bad, err, some 0⟩) parseJSON (ResetArg.arrVal xs) =
      Except.ok (⟨0, some (parseFailureEnvelope bad)⟩,
        ["virtualpad-admin pad reset-passwords " ++ String.intercalate " "
          ((xs.filter (fun e => _pads.contains e)).map argToString)])) := by
  have hne := contains_pads_ne_all hpad
  have hmem : pad ∈ _pads := by simpa using hpad
  have hex : ∃ x ∈ xs, x ∈ _pads := by simpa [List.filter_eq_nil_iff] using hxs
  refine ⟨?_, ?_, ?_, ?_, ?_, ?_, ?_, ?_, ?_, ?_, ?_, ?_, ?_⟩
  · simp [startServer, jsOrZero_some, hn, processFailureEnvelope]
  · simp [stopServer, jsOrZero_some, hn, processFailureEnvelope]
  · simp [checkServer, jsOrZero_some, hn, processFailureEnvelope]
  · simp [status, jsOrZero_some, hn, processFailureEnvelope]
  · simp [clearPad, hne, hmem, jsOrZero_some, hn, processFailureEnvelope]
  · simp [clearPad, jsOrZero_some, hn, processFailureEnvelope]
  · simp [resetPasswords, normalizePads, List.length_eq_zero, hxs, hex, jsOrZero_some, hn,
      processFailureEnvelope]
  · simp [startServer, jsOrZero, jsonParse, hparse, parseFailureEnvelope]
  · simp [stopServer, jsOrZero, jsonParse, hparse, parseFailureEnvelope]
  · simp [checkServer, jsOrZero, jsonParse, hparse, parseFailureEnvelope]
  · simp [status, jsOrZero, jsonParse, hparse, parseFailureEnvelope]
  · simp [clearPad, hne, hmem, jsOrZero, jsonParse, hparse, parseFailureEnvelope]
  · simp [resetPasswords, normalizePads, List.length_eq_zero, hxs, hex, jsOrZero, jsonParse,
      hparse, parseFailureEnvelope]

/-- C1 (witness): the amended statement applied at exit code 2, stderr
`"boom"`, stdout `"payload"` for the non-zero case, stdout `"not json"` for
the parse-failure case, a parser that rejects everything, pad index 3 and
the password list `[3]`. -/
theorem C1_amended_witness :
    (2 : Int) ≠ 0 ∧
    _pads.contains (JSArg.num 3) = true ∧
    [JSArg.num 3].filter (fun e => _pads.contains e) ≠ [] ∧
    (fun _ : String => (none : Option JSVal)) "not json" = none ∧
    startServer (fun _ => ⟨"payload", "boom", some 2⟩) (fun _ => none) =
      Except.ok (⟨2, some (processFailureEnvelope "boom")⟩,
        ["virtualpad-admin server start"]) :=
  ⟨by decide, by decide, by decide, rfl,
    (C1_amended (fun _ => none) "payload" "not json" "boom" 2 (JSArg.num 3)
      [JSArg.num 3] (by decide) (by decide) (by decide) rfl).1⟩

/-- C2 (counterexample): the claim states that `clearPad(8)` returns
`{code: 1, details: {status: "error", hint: "pad:invalid-index", index: 8}}`.
The envelope the code builds spells its first key `satus`: it has no
`status` field. -/
theorem C2_counterexample :
    resultDetails (clearPad (fun _ => ⟨"", "", some 0⟩) (fun _ => none) (JSArg.num 8)) =
      some (JSVal.obj [("satus", JSVal.str "error"),
        ("hint", JSVal.str "pad:invalid-index"), ("index", JSVal.num 8)]) ∧
    (resultDetails (clearPad (fun _ => ⟨"", "", some 0⟩) (fun _ => none)
      (JSArg.num 8))).bind (fun d => getField d "status") = none ∧
    invocations (clearPad (fun _ => ⟨"", "", some 0⟩) (fun _ => none) (JSArg.num 8)) = [] :=
  ⟨rfl, rfl, rfl⟩

/-- C2 (amended): for every argument value outside
{0,...,7, "0",...,"7", "all"} (e.g. 8, -1, "x"), `clearPad` returns exactly
`{code: 1, details: {satus: "error", hint: "pad:invalid-index", index: <the
argument, verbatim>}}` — with the key spelled `satus` — and performs zero
external command invocations (for any invoker and parser). -/
theorem C2_amended (invoke : String → ExecOutcome) (parseJSON : String → Option JSVal)
    (pad : JSArg) (h1 : _pads.contains pad = false) (h2 : pad ≠ JSArg.str "all") :
    clearPad invoke parseJSON pad =
      Except.ok (⟨1, some (invalidIndexEnvelope pad)⟩, []) := by
  have hnm : pad ∉ _pads := by simpa using h1
  simp [clearPad, hnm, h2, invalidIndexEnvelope]

/-- C2 (witness): the amended statement at the out-of-range index 8. -/
theorem C2_amended_witness :
    _pads.contains (JSArg.num 8) = false ∧
    JSArg.num 8 ≠ JSArg.str "all" ∧
    clearPad (fun _ => ⟨"", "", some 0⟩) (fun _ => none) (JSArg.num 8) =
      Except.ok (⟨1, some (invalidIndexEnvelope (JSArg.num 8))⟩, []) :=
  ⟨by decide, by decide,
    C2_amended (fun _ => ⟨"", "", some 0⟩) (fun _ => none) (JSArg.num 8)
      (by decide) (by decide)⟩

/-- C3: for every PadIndex `p` in 0..7, in integer or string-decimal form
(i.e. every member of the source's `_pads` set), `clearPad p` issues the
single command `virtualpad-admin pad clear <p>`; `clearPad "all"` issues the
single command `virtualpad-admin pad clear-all` and, whenever the exit code
is zero, returns the locally synthesized `{type: "response", status:
"pad:ok"}` as details — for every parser and every stdout, i.e. without ever
parsing stdout in that path. -/
theorem C3_clearPad_commands (invoke : String → ExecOutcome)
    (parseJSON : String → Option JSVal) (pad : JSArg) (out err : String)
    (hpad : _pads.contains pad = true) :
    invocations (clearPad invoke parseJSON pad) =
      ["virtualpad-admin pad clear " ++ argToString pad] ∧
    invocations (clearPad invoke parseJSON (JSArg.str "all")) =
      ["virtualpad-admin pad clear-all"] ∧
    clearPad (fun _ => ⟨out, err, some 0⟩) parseJSON (JSArg.str "all") =
      Except.ok (⟨0, some padOkEnvelope⟩, ["virtualpad-admin pad clear-all"]) := by
  have hne := contains_pads_ne_all hpad
  have hmem : pad ∈ _pads := by simpa using hpad
  refine ⟨?_, ?_, ?_⟩
  · simp [clearPad, hne, hmem, invocations]
  · simp [clearPad, invocations]
  · simp [clearPad, jsOrZero, padOkEnvelope]

/-- C3 (witness): pad index 5. -/
theorem C3_clearPad_commands_witness :
    _pads.contains (JSArg.num 5) = true ∧
    invocations (clearPad (fun _ => ⟨"", "", some 0⟩) (fun _ => none) (JSArg.num 5)) =
      ["virtualpad-admin pad clear 5"] :=
  ⟨by decide,
    (C3_clearPad_commands (fun _ => ⟨"", "", some 0⟩) (fun _ => none) (JSArg.num 5)
      "" "" (by decide)).1⟩

/-- C4: `resetPasswords(undefined)`, `resetPasswords([])` and
`resetPasswords([9,10])` (all elements invalid) each return exactly
`{code: 0}` — no `details` field — and perform zero external command
invocations, for every invoker and parser. -/
theorem C4_resetPasswords_noop (invoke : String → ExecOutcome)
    (parseJSON : String → Option JSVal) :
    resetPasswords invoke parseJSON ResetArg.undef = Except.ok (⟨0, none⟩, []) ∧
    resetPasswords invoke parseJSON (ResetArg.arrVal []) = Except.ok (⟨0, none⟩, []) ∧
    resetPasswords invoke parseJSON (ResetArg.arrVal [JSArg.num 9, JSArg.num 10]) =
      Except.ok (⟨0, none⟩, []) :=
  ⟨rfl, rfl, rfl⟩

/-- C5 (counterexample): the claim says duplicates are dropped from the index
list; on input `[3, 3]` the command the code issues carries `3 3`, not the
deduplicated `3`. -/
theorem C5_counterexample :
    invocations (resetPasswords (fun _ => ⟨"", "", some 0⟩) (fun _ => none)
      (ResetArg.arrVal [JSArg.num 3, JSArg.num 3])) =
      ["virtualpad-admin pad reset-passwords 3 3"] ∧
    ("virtualpad-admin pad reset-passwords 3 3" : String) ≠
      "virtualpad-admin pad reset-passwords 3" :=
  ⟨rfl, by decide⟩

/-- C5 (amended): for every input list to `resetPasswords`, the indices
passed to the admin command are the valid pad indices of the input in their
original order, with invalid elements dropped, no reordering, and duplicates
preserved; in particular `resetPasswords([3,1,99,2])` invokes the command
with `3 1 2`.  Validity here is the spec-side `isValidPadIndex` (an integer
in [0,7] or its string-decimal form), shown by `contains_pads_eq` to agree
with the source's `_pads` set. -/
theorem C5_amended (invoke : String → ExecOutcome) (parseJSON : String → Option JSVal)
    (xs : List JSArg) (hxs : xs.filter isValidPadIndex ≠ []) :
    invocations (resetPasswords invoke parseJSON (ResetArg.arrVal xs)) =
      ["virtualpad-admin pad reset-passwords " ++ String.intercalate " "
        ((xs.filter isValidPadIndex).map argToString)] ∧
    invocations (resetPasswords invoke parseJSON (ResetArg.arrVal
      [JSArg.num 3, JSArg.num 1, JSArg.num 99, JSArg.num 2])) =
      ["virtualpad-admin pad reset-passwords 3 1 2"] := by
  have hf : xs.filter (fun e => _pads.contains e) = xs.filter isValidPadIndex := by
    simp only [contains_pads_eq]
  constructor
  · have hne2 : ¬((xs.filter (fun e => _pads.contains e)).length = 0) := by
      rw [hf]
      simpa [List.length_eq_zero] using hxs
    simp only [resetPasswords, normalizePads]
    rw [if_neg hne2]
    simp only [invocations]
    rw [hf]
  · rfl

/-- C5 (witness): the claim's own example `[3,1,99,2]`. -/
theorem C5_amended_witness :
    [JSArg.num 3, JSArg.num 1, JSArg.num 99, JSArg.num 2].filter isValidPadIndex ≠ [] ∧
    invocations (resetPasswords (fun _ => ⟨"", "", some 0⟩) (fun _ => none)
      (ResetArg.arrVal [JSArg.num 3, JSArg.num 1, JSArg.num 99, JSArg.num 2])) =
      ["virtualpad-admin pad reset-passwords 3 1 2"] :=
  ⟨by decide,
    (C5_amended (fun _ => ⟨"", "", some 0⟩) (fun _ => none)
      [JSArg.num 3, JSArg.num 1, JSArg.num 99, JSArg.num 2] (by decide)).2⟩

/-- C6: `resetPasswords("all")` invokes the admin command exactly once, with
the space-separated indices `0 1 2 3 4 5 6 7` in that order, for every
invoker and parser. -/
theorem C6_resetPasswords_all (invoke : String → ExecOutcome)
    (parseJSON : String → Option JSVal) :
    invocations (resetPasswords invoke parseJSON (ResetArg.strVal "all")) =
      ["virtualpad-admin pad reset-passwords 0 1 2 3 4 5 6 7"] :=
  rfl

/-- C7: for every invocation outcome with exit code 0 whose stdout is a valid
JSON encoding of an object `v` (i.e. `JSON.parse`, abstracted as `parseJSON`,
returns `v` on it), the operation's result details are exactly `v` — the
parsed payload is returned verbatim, with no mutation and no wrapping.  This
holds for every stdout-parsing operation: `startServer`, `stopServer`,
`checkServer`, `status`, `clearPad` on a valid pad index, and
`resetPasswords` with a non-empty normalized list. -/
theorem C7_decode_roundtrip (parseJSON : String → Option JSVal) (out err : String)
    (v : JSVal) (pad : JSArg) (xs : List JSArg)
    (hparse : parseJSON out = some v) (hpad : _pads.contains pad = true)
    (hxs : xs.filter (fun e => _pads.contains e) ≠ []) :
    resultDetails (startServer (fun _ => ⟨out, err, some 0⟩) parseJSON) = some v ∧
    resultDetails (stopServer (fun _ => ⟨out, err, some 0⟩) parseJSON) = some v ∧
    resultDetails (checkServer (fun _ => ⟨out, err, some 0⟩) parseJSON) = some v ∧
    resultDetails (status (fun _ => ⟨out, err, some 0⟩) parseJSON) = some v ∧
    resultDetails (clearPad (fun _ => ⟨out, err, some 0⟩) parseJSON pad) = some v ∧
    resultDetails (resetPasswords (fun _ => ⟨out, err, some 0⟩) parseJSON
      (ResetArg.arrVal xs)) = some v := by
  have hne := contains_pads_ne_all hpad
  have hmem : pad ∈ _pads := by simpa using hpad
  have hex : ∃ x ∈ xs, x ∈ _pads := by simpa [List.filter_eq_nil_iff] using hxs
  refine ⟨?_, ?_, ?_, ?_, ?_, ?_⟩
  · simp [startServer, resultDetails, jsOrZero, jsonParse, hparse]
  · simp [stopServer, resultDetails, jsOrZero, jsonParse, hparse]
  · simp [checkServer, resultDetails, jsOrZero, jsonParse, hparse]
  · simp [status, resultDetails, jsOrZero, jsonParse, hparse]
  · simp [clearPad, hne, hmem, resultDetails, jsOrZero, jsonParse, hparse]
  · have hnall : ¬∀ a ∈ xs, a ∉ _pads := by
      rcases hex with ⟨x, hx1, hx2⟩
      intro hall
      exact hall x hx1 hx2
    simp [resetPasswords, normalizePads, List.length_eq_zero, hnall, resultDetails,
      jsOrZero, jsonParse, hparse]

/-- C7 (witness): a parser mapping the stdout `"[0]"` to the array value
`[0]`, pad index 2, password list `[2]`. -/
theorem C7_decode_roundtrip_witness :
    (fun s => if s = "[0]" then some (JSVal.arr [JSVal.num 0]) else none) "[0]" =
      some (JSVal.arr [JSVal.num 0]) ∧
    _pads.contains (JSArg.num 2) = true ∧
    [JSArg.num 2].filter (fun e => _pads.contains e) ≠ [] ∧
    resultDetails (startServer (fun _ => ⟨"[0]", "", some 0⟩)
      (fun s => if s = "[0]" then some (JSVal.arr [JSVal.num 0]) else none)) =
      some (JSVal.arr [JSVal.num 0]) :=
  ⟨rfl, by decide, by decide,
    (C7_decode_roundtrip
      (fun s => if s = "[0]" then some (JSVal.arr [JSVal.num 0]) else none)
      "[0]" "" (JSVal.arr [JSVal.num 0]) (JSArg.num 2) [JSArg.num 2]
      rfl (by decide) (by decide)).1⟩

/-- C8 (counterexample): the claim says every operation returns a result
value for every valid PadSelector, a PadSelector being a single PadIndex, a
sequence, or `"all"`.  `resetPasswords(3)` — the single PadIndex 3 — throws
`TypeError: pads.filter is not a function`: the truthy number survives
`pads ||= []`, is not `"all"`, and has no `.filter` method. -/
theorem C8_counterexample :
    resetPasswords (fun _ => ⟨"", "", some 0⟩) (fun _ => none) (ResetArg.numVal 3) =
      Except.error "TypeError: pads.filter is not a function" ∧
    returnsValue (resetPasswords (fun _ => ⟨"", "", some 0⟩) (fun _ => none)
      (ResetArg.numVal 3)) = false :=
  ⟨rfl, rfl⟩

/-- C8 (amended): every Pad Control API operation returns a result value and
never throws for every input admitted by its own contract: the nullary
operations always; `clearPad` for every argument; `resetPasswords` for an
omitted/falsy argument, for the literal `"all"`, and for every sequence of
values.  (A bare single PadIndex passed to `resetPasswords` is outside its
contract — the function's own documentation admits only an array or `"all"`
— and throws a TypeError, so the spec's PadSelector for `resetPasswords`
must be read as excluding the single-index form.) -/
theorem C8_amended (invoke : String → ExecOutcome) (parseJSON : String → Option JSVal)
    (pad : JSArg) (xs : List JSArg) :
    returnsValue (startServer invoke parseJSON) = true ∧
    returnsValue (stopServer invoke parseJSON) = true ∧
    returnsValue (checkServer invoke parseJSON) = true ∧
    returnsValue (status invoke parseJSON) = true ∧
    returnsValue (clearPad invoke parseJSON pad) = true ∧
    returnsValue (resetPasswords invoke parseJSON ResetArg.undef) = true ∧
    returnsValue (resetPasswords invoke parseJSON (ResetArg.strVal "all")) = true ∧
    returnsValue (resetPasswords invoke parseJSON (ResetArg.arrVal xs)) = true := by
  refine ⟨rfl, rfl, rfl, rfl, ?_, rfl, rfl, ?_⟩
  · simp only [clearPad]
    by_cases h1 : pad = JSArg.str "all"
    · rw [if_pos h1]
      rfl
    · rw [if_neg h1]
      by_cases h2 : _pads.contains pad = true
      · rw [if_pos h2]
        rfl
      · rw [if_neg h2]
        rfl
  · simp only [resetPasswords, normalizePads]
    by_cases h : (xs.filter (fun e => _pads.contains e)).length = 0
    · rw [if_pos h]
      rfl
    · rw [if_neg h]
      rfl

/-- C9: for every operation that invokes the admin command, the `code` field
of the returned OperationResult equals the process exit status when one is
present, and normalizes to 0 when the process produced no exit code
(`result?.code || 0`). -/
theorem C9_exit_code (parseJSON : String → Option JSVal) (out err : String) (n : Int) :
    resultCode (startServer (fun _ => ⟨out, err, some n⟩) parseJSON) = n ∧
    resultCode (startServer (fun _ => ⟨out, err, none⟩) parseJSON) = 0 ∧
    resultCode (stopServer (fun _ => ⟨out, err, some n⟩) parseJSON) = n ∧
    resultCode (stopServer (fun _ => ⟨out, err, none⟩) parseJSON) = 0 ∧
    resultCode (checkServer (fun _ => ⟨out, err, some n⟩) parseJSON) = n ∧
    resultCode (checkServer (fun _ => ⟨out, err, none⟩) parseJSON) = 0 ∧
    resultCode (status (fun _ => ⟨out, err, some n⟩) parseJSON) = n ∧
    resultCode (status (fun _ => ⟨out, err, none⟩) parseJSON) = 0 ∧
    resultCode (clearPad (fun _ => ⟨out, err, some n⟩) parseJSON (JSArg.num 3)) = n ∧
    resultCode (clearPad (fun _ => ⟨out, err, none⟩) parseJSON (JSArg.num 3)) = 0 ∧
    resultCode (clearPad (fun _ => ⟨out, err, some n⟩) parseJSON (JSArg.str "all")) = n ∧
    resultCode (clearPad (fun _ => ⟨out, err, none⟩) parseJSON (JSArg.str "all")) = 0 ∧
    resultCode (resetPasswords (fun _ => ⟨out, err, some n⟩) parseJSON
      (ResetArg.arrVal [JSArg.num 3])) = n ∧
    resultCode (resetPasswords (fun _ => ⟨out, err, none⟩) parseJSON
      (ResetArg.arrVal [JSArg.num 3])) = 0 :=
  ⟨jsOrZero_some n, rfl, jsOrZero_some n, rfl, jsOrZero_some n, rfl, jsOrZero_some n, rfl,
    jsOrZero_some n, rfl, jsOrZero_some n, rfl, jsOrZero_some n, rfl⟩

/-- C10: the two "unknown" error envelopes are not field-compatible: for
every operation that invokes the admin command, the envelope produced on a
non-zero exit code, and `clearPad`'s invalid-index envelope, carry the key
spelled `satus` (its lookup yields `"error"`), while the envelope produced on
a JSON parse failure (zero exit code) carries the key spelled `status`;
consequently a caller testing `details.status === "error"` detects decode
failures (the `status` lookup yields `"error"`) but not process failures or
validation failures (there the `status` lookup yields `undefined`, modelled
`none`). -/
theorem C10_envelope_key_spelling (invoke : String → ExecOutcome)
    (parseJSON : String → Option JSVal) (out err : String) (n : Int)
    (pad : JSArg) (xs : List JSArg)
    (hn : n ≠ 0) (hpad : _pads.contains pad = true)
    (hxs : xs.filter (fun e => _pads.contains e) ≠ [])
    (hparse : parseJSON out = none) :
    ((resultDetails (startServer (fun _ => ⟨out, err, some n⟩) parseJSON)).bind
      (fun d => getField d "status") = none ∧
    (resultDetails (stopServer (fun _ => ⟨out, err, some n⟩) parseJSON)).bind
      (fun d => getField d "status") = none ∧
    (resultDetails (checkServer (fun _ => ⟨out, err, some n⟩) parseJSON)).bind
      (fun d => getField d "status") = none ∧
    (resultDetails (status (fun _ => ⟨out, err, some n⟩) parseJSON)).bind
      (fun d => getField d "status") = none ∧
    (resultDetails (clearPad (fun _ => ⟨out, err, some n⟩) parseJSON pad)).bind
      (fun d => getField d "status") = none ∧
    (resultDetails (clearPad (fun _ => ⟨out, err, some n⟩) parseJSON
      (JSArg.str "all"))).bind (fun d => getField d "status") = none ∧
    (resultDetails (resetPasswords (fun _ => ⟨out, err, some n⟩) parseJSON
      (ResetArg.arrVal xs))).bind (fun d => getField d "status") = none ∧
    (resultDetails (clearPad invoke parseJSON (JSArg.num 8))).bind
      (fun d => getField d "status") = none) ∧
    ((resultDetails (startServer (fun _ => ⟨out, err, some 0⟩) parseJSON)).bind
      (fun d => getField d "status") = some (JSVal.str "error") ∧
    (resultDetails (stopServer (fun _ => ⟨out, err, some 0⟩) parseJSON)).bind
      (fun d => getField d "status") = some (JSVal.str "error") ∧
    (resultDetails (checkServer (fun _ => ⟨out, err, some 0⟩) parseJSON)).bind
      (fun d => getField d "status") = some (JSVal.str "error") ∧
    (resultDetails (status (fun _ => ⟨out, err, some 0⟩) parseJSON)).bind
      (fun d => getField d "status") = some (JSVal.str "error") ∧
    (resultDetails (clearPad (fun _ => ⟨out, err, some 0⟩) parseJSON pad)).bind
      (fun d => getField d "status") = some (JSVal.str "error") ∧
    (resultDetails (resetPasswords (fun _ => ⟨out, err, some 0⟩) parseJSON
      (ResetArg.arrVal xs))).bind (fun d => getField d "status") =
        some (JSVal.str "error")) ∧
    ((resultDetails (startServer (fun _ => ⟨out, err, some n⟩) parseJSON)).bind
      (fun d => getField d "satus") = some (JSVal.str "error") ∧
    (resultDetails (stopServer (fun _ => ⟨out, err, some n⟩) parseJSON)).bind
      (fun d => getField d "satus") = some (JSVal.str "error") ∧
    (resultDetails (checkServer (fun _ => ⟨out, err, some n⟩) parseJSON)).bind
      (fun d => getField d "satus") = some (JSVal.str "error") ∧
    (resultDetails (status (fun _ => ⟨out, err, some n⟩) parseJSON)).bind
      (fun d => getField d "satus") = some (JSVal.str "error") ∧
    (resultDetails (clearPad (fun _ => ⟨out, err, some n⟩) parseJSON pad)).bind
      (fun d => getField d "satus") = some (JSVal.str "error") ∧
    (resultDetails (clearPad (fun _ => ⟨out, err, some n⟩) parseJSON
      (JSArg.str "all"))).bind (fun d => getField d "satus") =
        some (JSVal.str "error") ∧
    (resultDetails (resetPasswords (fun _ => ⟨out, err, some n⟩) parseJSON
      (ResetArg.arrVal xs))).bind (fun d => getField d "satus") =
        some (JSVal.str "error") ∧
    (resultDetails (clearPad invoke parseJSON (JSArg.num 8))).bind
      (fun d => getField d "satus") = some (JSVal.str "error") ∧
    (resultDetails (startServer (fun _ => ⟨out, err, some 0⟩) parseJSON)).bind
      (fun d => getField d "satus") = none) := by
  have hne := contains_pads_ne_all hpad
  have hmem : pad ∈ _pads := by simpa using hpad
  have hex : ∃ x ∈ xs, x ∈ _pads := by simpa [List.filter_eq_nil_iff] using hxs
  have hnall : ¬∀ a ∈ xs, a ∉ _pads := by
    rcases hex with ⟨x, hx1, hx2⟩
    intro hall
    exact hall x hx1 hx2
  have e1 : resultDetails (startServer (fun _ => ⟨out, err, some n⟩) parseJSON) =
      some (processFailureEnvelope err) := by
    simp [startServer, resultDetails, jsOrZero_some, hn, processFailureEnvelope]
  have e2 : resultDetails (stopServer (fun _ => ⟨out, err, some n⟩) parseJSON) =
      some (processFailureEnvelope err) := by
    simp [stopServer, resultDetails, jsOrZero_some, hn, processFailureEnvelope]
  have e3 : resultDetails (checkServer (fun _ => ⟨out, err, some n⟩) parseJSON) =
      some (processFailureEnvelope err) := by
    simp [checkServer, resultDetails, jsOrZero_some, hn, processFailureEnvelope]
  have e4 : resultDetails (status (fun _ => ⟨out, err, some n⟩) parseJSON) =
      some (processFailureEnvelope err) := by
    simp [status, resultDetails, jsOrZero_some, hn, processFailureEnvelope]
  have e5 : resultDetails (clearPad (fun _ => ⟨out, err, some n⟩) parseJSON pad) =
      some (processFailureEnvelope err) := by
    simp [clearPad, hne, hmem, resultDetails, jsOrZero_some, hn, processFailureEnvelope]
  have e6 : resultDetails (clearPad (fun _ => ⟨out, err, some n⟩) parseJSON
      (JSArg.str "all")) = some (processFailureEnvelope err) := by
    simp [clearPad, resultDetails, jsOrZero_some, hn, processFailureEnvelope]
  have e7 : resultDetails (resetPasswords (fun _ => ⟨out, err, some n⟩) parseJSON
      (ResetArg.arrVal xs)) = some (processFailureEnvelope err) := by
    simp [resetPasswords, normalizePads, List.length_eq_zero, hnall, resultDetails,
      jsOrZero_some, hn, processFailureEnvelope]
  have e8 : resultDetails (clearPad invoke parseJSON (JSArg.num 8)) =
      some (invalidIndexEnvelope (JSArg.num 8)) := by
    simp [clearPad, resultDetails, invalidIndexEnvelope, _pads]
  have p1 : resultDetails (startServer (fun _ => ⟨out, err, some 0⟩) parseJSON) =
      some (parseFailureEnvelope out) := by
    simp [startServer, resultDetails, jsOrZero, jsonParse, hparse, parseFailureEnvelope]
  have p2 : resultDetails (stopServer (fun _ => ⟨out, err, some 0⟩) parseJSON) =
      some (parseFailureEnvelope out) := by
    simp [stopServer, resultDetails, jsOrZero, jsonParse, hparse, parseFailureEnvelope]
  have p3 : resultDetails (checkServer (fun _ => ⟨out, err, some 0⟩) parseJSON) =
      some (parseFailureEnvelope out) := by
    simp [checkServer, resultDetails, jsOrZero, jsonParse, hparse, parseFailureEnvelope]
  have p4 : resultDetails (status (fun _ => ⟨out, err, some 0⟩) parseJSON) =
      some (parseFailureEnvelope out) := by
    simp [status, resultDetails, jsOrZero, jsonParse, hparse, parseFailureEnvelope]
  have p5 : resultDetails (clearPad (fun _ => ⟨out, err, some 0⟩) parseJSON pad) =
      some (parseFailureEnvelope out) := by
    simp [clearPad, hne, hmem, resultDetails, jsOrZero, jsonParse, hparse,
      parseFailureEnvelope]
  have p6 : resultDetails (resetPasswords (fun _ => ⟨out, err, some 0⟩) parseJSON
      (ResetArg.arrVal xs)) = some (parseFailureEnvelope out) := by
    simp [resetPasswords, normalizePads, List.length_eq_zero, hnall, resultDetails,
      jsOrZero, jsonParse, hparse, parseFailureEnvelope]
  refine ⟨⟨?_, ?_, ?_, ?_, ?_, ?_, ?_, ?_⟩, ⟨?_, ?_, ?_, ?_, ?_, ?_⟩,
    ⟨?_, ?_, ?_, ?_, ?_, ?_, ?_, ?_, ?_⟩⟩
  · rw [e1]; rfl
  · rw [e2]; rfl
  · rw [e3]; rfl
  · rw [e4]; rfl
  · rw [e5]; rfl
  · rw [e6]; rfl
  · rw [e7]; rfl
  · rw [e8]; rfl
  · rw [p1]; rfl
  · rw [p2]; rfl
  · rw [p3]; rfl
  · rw [p4]; rfl
  · rw [p5]; rfl
  · rw [p6]; rfl
  · rw [e1]; rfl
  · rw [e2]; rfl
  · rw [e3]; rfl
  · rw [e4]; rfl
  · rw [e5]; rfl
  · rw [e6]; rfl
  · rw [e7]; rfl
  · rw [e8]; rfl
  · rw [p1]; rfl

/-- C10 (witness): exit code 2 and a parser rejecting `"not json"`, pad
index 1, password list `[1]`: decode failures answer to `details.status`,
process failures do not. -/
theorem C10_envelope_key_spelling_witness :
    (2 : Int) ≠ 0 ∧
    _pads.contains (JSArg.num 1) = true ∧
    [JSArg.num 1].filter (fun e => _pads.contains e) ≠ [] ∧
    (fun _ : String => (none : Option JSVal)) "not json" = none ∧
    (resultDetails (startServer (fun _ => ⟨"not json", "boom", some 2⟩)
      (fun _ => none))).bind (fun d => getField d "status") = none :=
  ⟨by decide, by decide, by decide, rfl,
    ((C10_envelope_key_spelling (fun _ => ⟨"", "", some 0⟩) (fun _ => none)
      "not json" "boom" 2 (JSArg.num 1) [JSArg.num 1]
      (by decide) (by decide) (by decide) rfl).1).1⟩

end VirtualPad
